import Mathlib

/-!
# SD/MMC-over-SPI host header (`sdspi_host.h`): wire-format constants and layouts

A shallow embedding of
`examples/at_spi_master/sdspi/ESP32/components/sdspi_host/include/sdspi_host.h`.

* Object-like preprocessor constants become `Nat` definitions with the names of
  the header.
* `sdspi_hw_cmd_t` becomes a structure together with the byte image of its
  command part; bit-fields are allocated from the least significant bit of their
  storage unit in declaration order (the ABI of the little-endian target).
* `spi_context_t` becomes a structure with its four fields.
* The functions the header only declares (`at_sdspi_send_packet`, ...) and the
  frame codec have no body in the header; where a property needs one it is
  modelled from the specification and marked as such.
-/

namespace Sdspi

/-! ## Constants of the header -/

/-- The `BIT(n)` helper of `soc/soc.h`, which the header includes: bit `n` set. -/
def BIT (n : Nat) : Nat := 1 <<< n

def MMC_GO_IDLE_STATE : Nat := 0
def SD_IO_SEND_OP_COND : Nat := 5
def SD_IO_RW_DIRECT : Nat := 52
def SD_IO_RW_EXTENDED : Nat := 53
def SD_CRC_ON_OFF : Nat := 59

/-- Value `(0<<31)`. -/
def SD_ARG_CMD53_READ : Nat := 0 <<< 31
/-- Value `(1<<31)`, as the 32-bit unsigned argument word sees it. -/
def SD_ARG_CMD53_WRITE : Nat := 1 <<< 31
/-- Value `(1<<27)`. -/
def SD_ARG_CMD53_BLOCK_MODE : Nat := 1 <<< 27

def SDSPI_CMD_SIZE : Nat := 6
def SDSPI_NCR_MIN_SIZE : Nat := 1
def SDSPI_NCR_MAX_SIZE : Nat := 8

/-- Size of the command without any response. -/
def SDSPI_CMD_NORESP_SIZE : Nat := SDSPI_CMD_SIZE + 0
/-- Size of the command with R1 response. -/
def SDSPI_CMD_R1_SIZE : Nat := SDSPI_CMD_SIZE + SDSPI_NCR_MIN_SIZE + 1
/-- Size of the command with R4 response. -/
def SDSPI_CMD_R4_SIZE : Nat := SDSPI_CMD_SIZE + SDSPI_NCR_MIN_SIZE + 5
/-- Size of the command with R5 response. -/
def SDSPI_CMD_R5_SIZE : Nat := SDSPI_CMD_SIZE + SDSPI_NCR_MIN_SIZE + 2

def SDSPI_CMD_FLAG_DATA : Nat := BIT 0
def SDSPI_CMD_FLAG_WRITE : Nat := BIT 1
def SDSPI_CMD_FLAG_RSP_R1 : Nat := BIT 2
def SDSPI_CMD_FLAG_RSP_R4 : Nat := BIT 5
def SDSPI_CMD_FLAG_RSP_R5 : Nat := BIT 6
def SDSPI_CMD_FLAG_NORSP : Nat := BIT 8
def SDSPI_CMD_FLAG_MULTI_BLK : Nat := BIT 9

/-! SPI mode R1 response type bits. -/

def SD_SPI_R1_IDLE_STATE : Nat := 1 <<< 0
def SD_SPI_R1_ERASE_RST : Nat := 1 <<< 1
def SD_SPI_R1_ILLEGAL_CMD : Nat := 1 <<< 2
def SD_SPI_R1_CMD_CRC_ERR : Nat := 1 <<< 3
def SD_SPI_R1_ERASE_SEQ_ERR : Nat := 1 <<< 4
def SD_SPI_R1_ADDR_ERR : Nat := 1 <<< 5
def SD_SPI_R1_PARAM_ERR : Nat := 1 <<< 6
def SD_SPI_R1_NO_RESPONSE : Nat := 1 <<< 7

/-- Max size of single block transfer. -/
def SDSPI_MAX_DATA_LEN : Nat := 512

/-- Maximum number of dummy bytes between the request and response. -/
def SDSPI_RESPONSE_MAX_DELAY : Nat := 8

/-- Data value which causes MOSI to stay high. -/
def SDSPI_MOSI_IDLE_VAL : Nat := 0xff

/-- Token sent before single/multi block reads and single block writes. -/
def TOKEN_BLOCK_START : Nat := 0b11111110
/-- Token sent before multi block writes. -/
def TOKEN_BLOCK_START_WRITE_MULTI : Nat := 0b11111100
/-- Token used to stop multi block write. -/
def TOKEN_BLOCK_STOP_WRITE_MULTI : Nat := 0b11111101

def ESP_SLAVE_CMD53_END_ADDR : Nat := 0x1f800

def TX_BUFFER_MAX : Nat := 0x1000
def TX_BUFFER_MASK : Nat := 0xFFF
def RX_BYTE_MAX : Nat := 0x100000
def RX_BYTE_MASK : Nat := 0xFFFFF

def SD_ARG_CMD53_FUNC_SHIFT : Nat := 28
def SD_ARG_CMD53_REG_SHIFT : Nat := 9
def SD_ARG_CMD53_LENGTH_SHIFT : Nat := 0
/-- Value `(1<<26)`. -/
def SD_ARG_CMD53_INCREMENT : Nat := 1 <<< 26
def SD_ARG_CMD53_REG_MASK : Nat := 0x1ffff
def SD_ARG_CMD53_LENGTH_MASK : Nat := 0x1ff
def SD_ARG_CMD53_FUNC_MASK : Nat := 0x7

def SDSPI_BLOCK_BUF_SIZE : Nat := 512 + 4

/-! ## `sdspi_hw_cmd_t` -/

/-- Transfer format in SPI mode, field for field as in the header. Every field
holds a natural number; the width the declaration gives it (`: 6`, `: 1`, `: 7`,
`uint8_t`) is applied when the field is laid out in memory. -/
structure sdspi_hw_cmd_t where
  /-- Field `uint8_t cmd_index : 6` -/
  cmd_index : Nat
  /-- Field `uint8_t transmission_bit : 1` -/
  transmission_bit : Nat
  /-- Field `uint8_t start_bit : 1` -/
  start_bit : Nat
  /-- Field `uint8_t arguments[4]` -/
  arguments : List Nat
  /-- Field `uint8_t stop_bit : 1` -/
  stop_bit : Nat
  /-- Field `uint8_t crc7 : 7` -/
  crc7 : Nat
  /-- Field `uint8_t ncr` -/
  ncr : Nat
  /-- Field `uint8_t r1` -/
  r1 : Nat
  /-- Field `uint32_t response[4]` -/
  response : List Nat
deriving DecidableEq

/-- The first storage unit of `sdspi_hw_cmd_t`: `cmd_index : 6` in bits 0..5,
`transmission_bit : 1` in bit 6, `start_bit : 1` in bit 7. -/
def hw_cmd_header_byte (c : sdspi_hw_cmd_t) : Nat :=
  (c.cmd_index % 2 ^ 6) ||| ((c.transmission_bit % 2 ^ 1) <<< 6) ||| ((c.start_bit % 2 ^ 1) <<< 7)

/-- The four bytes of `arguments[4]`, in array order. -/
def hw_cmd_argument_bytes (c : sdspi_hw_cmd_t) : List Nat :=
  [c.arguments.getD 0 0 % 2 ^ 8, c.arguments.getD 1 0 % 2 ^ 8,
   c.arguments.getD 2 0 % 2 ^ 8, c.arguments.getD 3 0 % 2 ^ 8]

/-- The storage unit after `arguments`: `stop_bit : 1` in bit 0, `crc7 : 7` in
bits 1..7. -/
def hw_cmd_trailer_byte (c : sdspi_hw_cmd_t) : Nat :=
  (c.stop_bit % 2 ^ 1) ||| ((c.crc7 % 2 ^ 7) <<< 1)

/-- The fields that "form the command sent from host to the card", as they lie
in memory before `ncr`: header byte, `arguments[0..3]`, trailer byte. -/
def hw_cmd_frame (c : sdspi_hw_cmd_t) : List Nat :=
  hw_cmd_header_byte c :: (hw_cmd_argument_bytes c ++ [hw_cmd_trailer_byte c])

/-! ## R1 status byte -/

/-- The eight R1 response type bits of the header, in declaration order. -/
def r1_flags : List Nat :=
  [SD_SPI_R1_IDLE_STATE, SD_SPI_R1_ERASE_RST, SD_SPI_R1_ILLEGAL_CMD, SD_SPI_R1_CMD_CRC_ERR,
   SD_SPI_R1_ERASE_SEQ_ERR, SD_SPI_R1_ADDR_ERR, SD_SPI_R1_PARAM_ERR, SD_SPI_R1_NO_RESPONSE]

/-- The flags of the header that are set in status byte `b` (`b & f` non-zero). -/
def r1_flags_set (b : Nat) : List Nat :=
  r1_flags.filter (fun f => b &&& f != 0)

/-- Bitwise OR of a list of flags. -/
def flags_union (fs : List Nat) : Nat :=
  fs.foldl (fun acc f => acc ||| f) 0

/-! ## `sdspi_command_t` and `spi_context_t` -/

/-- SD/MMC command information, field for field as in the header (`data` is the
buffer the pointer refers to). -/
structure sdspi_command_t where
  /-- Field `uint32_t opcode`: SD or MMC command index. -/
  opcode : Nat
  /-- Field `uint32_t arg`: SD/MMC command argument. -/
  arg : Nat
  /-- Field `spi_cmd_response_t response`: response buffer. -/
  response : List Nat
  /-- Field `void* data`: buffer to send or read into. -/
  data : List Nat
  /-- Field `size_t datalen`: length of data buffer. -/
  datalen : Nat
  /-- Field `size_t blklen`: block length. -/
  blklen : Nat
  /-- Field `int flags`. -/
  flags : Int
  /-- Field `int8_t error`: error returned from transfer. -/
  error : Int
  /-- Field `int timeout_ms`: response timeout, in milliseconds. -/
  timeout_ms : Int
deriving DecidableEq

/-- Flow-control context, field for field as in the header. -/
structure spi_context_t where
  /-- Field `uint16_t buffer_size`: data that do not fully fill a buffer is still
  counted as one buffer. -/
  buffer_size : Nat
  /-- Field `uint16_t block_size`. -/
  block_size : Nat
  /-- Field `size_t tx_sent_buffers`: amount of buffers already sent to the slave. -/
  tx_sent_buffers : Nat
  /-- Field `size_t rx_got_bytes`: amount of bytes already received from the slave. -/
  rx_got_bytes : Nat
deriving DecidableEq

/-! ## Frame codec (no body in the header) -/

/-- Modelled from the spec: the error taxonomy of section 7; the header declares no
error values of its own (it uses `esp_err_t`). -/
inductive SdspiError where
  | InvalidCommand
  | ResponseTimeout
  | BlockTimeout
  | CrcMismatch
  | BlockTooLarge
  | InsufficientCredit
  | StatusError (bits : Nat)
deriving DecidableEq

/-- Modelled from the spec: the "4 argument bytes (big-endian)" of a 32-bit argument,
most significant byte first; the code that fills `arguments` is not in the header. -/
def argument_bytes_be (argument : Nat) : List Nat :=
  [(argument >>> 24) % 2 ^ 8, (argument >>> 16) % 2 ^ 8, (argument >>> 8) % 2 ^ 8,
   argument % 2 ^ 8]

/-- Modelled from the spec: the Frame Codec contract `encode(command_index, argument)`
of section 4.1, whose body is not in the header. It fails with `InvalidCommand` when
`command_index` exceeds 6 bits; otherwise it fills an `sdspi_hw_cmd_t` with start bit 0,
transmission bit 1, the index, the argument big-endian, stop bit 1 and the CRC7 of the
5 preceding bytes, and returns the 6 command bytes of that struct. The CRC7 primitive is
external and is a parameter. -/
def encode (crc7 : List Nat → Nat) (command_index argument : Nat) :
    Except SdspiError (List Nat) :=
  if command_index < 2 ^ 6 then
    let body : sdspi_hw_cmd_t :=
      { cmd_index := command_index, transmission_bit := 1, start_bit := 0,
        arguments := argument_bytes_be argument, stop_bit := 1, crc7 := 0,
        ncr := 0xff, r1 := 0xff, response := [] }
    let crc := crc7 ((hw_cmd_frame body).take 5)
    .ok (hw_cmd_frame { body with crc7 := crc })
  else
    .error SdspiError.InvalidCommand

/-- Modelled from the spec: `encode` applied to the `opcode` and `arg` of a command
descriptor. -/
def encode_command (crc7 : List Nat → Nat) (cmd : sdspi_command_t) :
    Except SdspiError (List Nat) :=
  encode crc7 cmd.opcode cmd.arg

/-- Modelled from the spec: what re-parsing a command frame yields (index, argument,
CRC); no parser is in the header. -/
structure ParsedFrame where
  command_index : Nat
  argument : Nat
  crc7 : Nat
deriving DecidableEq

/-- Modelled from the spec: re-parsing of a 6-byte command frame (section 8, first
property); no parser is in the header. The frame must be 6 bytes with start bit 0,
transmission bit 1 and stop bit 1; the index is the low 6 bits of the first byte, the
argument the 4 following bytes big-endian, the CRC the high 7 bits of the last byte. -/
def parse_frame : List Nat → Option ParsedFrame
  | [h, a0, a1, a2, a3, t] =>
    if (h >>> 7) % 2 = 0 ∧ (h >>> 6) % 2 = 1 ∧ t % 2 = 1 then
      some { command_index := h &&& 0x3f,
             argument := (a0 <<< 24) ||| (a1 <<< 16) ||| (a2 <<< 8) ||| a3,
             crc7 := (t >>> 1) % 2 ^ 7 }
    else none
  | _ => none

/-! ## Flow-control tracker (no body in the header) -/

/-- Modelled from the spec: the number of `buffer_size` units a transfer of `n` bytes
costs, "rounding any incomplete final buffer up to a whole unit" (section 4.3; the
header comment on `buffer_size` says the same: data that do not fully fill a buffer is
still counted as one buffer). The body of `at_sdspi_send_packet` is not in the header. -/
def buffers_used (buffer_size n : Nat) : Nat :=
  n / buffer_size + (if n % buffer_size = 0 then 0 else 1)

/-- Modelled from the spec: `reset()` of the Flow-Control Tracker (section 4.4), zeroing
both counters; the body of `at_sdspi_init` is not in the header. -/
def reset (ctx : spi_context_t) : spi_context_t :=
  { ctx with tx_sent_buffers := 0, rx_got_bytes := 0 }

/-- Modelled from the spec: `commit_send(n_bytes)` of the Flow-Control Tracker (section
4.4), advancing `tx_sent_buffers` by the transfer counted in `buffer_size` units. -/
def commit_send (ctx : spi_context_t) (n_bytes : Nat) : spi_context_t :=
  { ctx with tx_sent_buffers := ctx.tx_sent_buffers + buffers_used ctx.buffer_size n_bytes }

/-- Modelled from the spec: `commit_receive(n_bytes)` of the Flow-Control Tracker
(section 4.4), advancing `rx_got_bytes` by the exact byte count. -/
def commit_receive (ctx : spi_context_t) (n_bytes : Nat) : spi_context_t :=
  { ctx with rx_got_bytes := ctx.rx_got_bytes + n_bytes }

/-- Modelled from the spec: one successful `commit_send` or `commit_receive` call with
its byte count; the tracker has no body in the header. -/
inductive Commit where
  | send (n_bytes : Nat)
  | receive (n_bytes : Nat)
deriving DecidableEq

/-- Modelled from the spec: the effect of one successful commit on the context. -/
def apply_commit (ctx : spi_context_t) : Commit → spi_context_t
  | .send n => commit_send ctx n
  | .receive n => commit_receive ctx n

/-- Modelled from the spec: a sequence of successful commits, applied in order. -/
def run_commits (ctx : spi_context_t) (cs : List Commit) : spi_context_t :=
  cs.foldl apply_commit ctx

/-- Modelled from the spec: the amount one commit adds in the send direction, counted
in `buffer_size` units. -/
def sent_amount (buffer_size : Nat) : Commit → Nat
  | .send n => buffers_used buffer_size n
  | .receive _ => 0

/-- Modelled from the spec: the amount one commit adds in the receive direction,
counted in exact bytes. -/
def received_amount : Commit → Nat
  | .send _ => 0
  | .receive n => n

/-! ## Theorems -/

/-! ### Bit-level helper lemmas -/

/-- A left shift by `k` OR-ed with a value below `2 ^ k` is their sum. -/
theorem shl_or_eq_add (a b k : Nat) (hb : b < 2 ^ k) : (a <<< k) ||| b = a * 2 ^ k + b := by
  rw [Nat.shiftLeft_eq, Nat.mul_comm a (2 ^ k)]
  exact (Nat.mul_add_lt_is_or hb a).symm

/-- Masking with the single bit `2 ^ k` is non-zero exactly when bit `k` is set. -/
theorem and_two_pow_ne_zero_iff (w k : Nat) : w &&& 2 ^ k ≠ 0 ↔ w / 2 ^ k % 2 = 1 := by
  constructor
  · intro h
    by_contra hc
    apply h
    apply Nat.eq_of_testBit_eq
    intro j
    simp only [Nat.testBit_and, Nat.testBit_two_pow, Nat.zero_testBit]
    by_cases hj : k = j
    · subst hj
      simp [Nat.testBit_to_div_mod, hc]
    · simp [hj]
  · intro h hz
    have hbit : (w &&& 2 ^ k).testBit k = true := by
      rw [Nat.testBit_and, Nat.testBit_two_pow_self, Nat.testBit_to_div_mod]
      simp [h]
    rw [hz] at hbit
    simp at hbit

/-- Four big-endian bytes of a 32-bit word reassemble to the word. -/
theorem be32_reassemble (arg : Nat) (h : arg < 2 ^ 32) :
    (((arg >>> 24) % 2 ^ 8) <<< 24) ||| (((arg >>> 16) % 2 ^ 8) <<< 16) |||
      (((arg >>> 8) % 2 ^ 8) <<< 8) ||| (arg % 2 ^ 8) = arg := by
  have h0 := Nat.mod_lt arg (show 0 < 2 ^ 8 by norm_num)
  have h1 := Nat.mod_lt (arg >>> 8) (show 0 < 2 ^ 8 by norm_num)
  have h2 := Nat.mod_lt (arg >>> 16) (show 0 < 2 ^ 8 by norm_num)
  rw [Nat.or_assoc, Nat.or_assoc]
  rw [shl_or_eq_add _ (arg % 2 ^ 8) 8 h0]
  rw [shl_or_eq_add _ _ 16 (by omega)]
  rw [shl_or_eq_add _ _ 24 (by omega)]
  simp only [Nat.shiftRight_eq_div_pow]
  omega

/-- The header byte of a frame with start bit 0 and transmission bit 1. -/
theorem header_byte_fixed_bits :
    ∀ j < 64, (j % 2 ^ 6) ||| ((1 % 2 ^ 1) <<< 6) ||| ((0 % 2 ^ 1) <<< 7) = 0x40 ||| j := by
  decide

/-- Start bit, transmission bit and index read back from the header byte. -/
theorem header_byte_fields :
    ∀ j < 64, ((0x40 ||| j) >>> 7) % 2 = 0 ∧ ((0x40 ||| j) >>> 6) % 2 = 1 ∧
      (0x40 ||| j) &&& 0x3f = j := by
  decide

/-- The trailer byte of a frame with stop bit 1. -/
theorem trailer_byte_fixed_bits (c : Nat) :
    (1 % 2 ^ 1) ||| ((c % 2 ^ 7) <<< 1) = ((c % 2 ^ 7) <<< 1) ||| 1 := by
  have h1 : 1 % 2 ^ 1 = 1 := by norm_num
  rw [h1, Nat.or_comm]

/-- Stop bit and CRC read back from the trailer byte. -/
theorem trailer_byte_fields :
    ∀ d < 128, ((d <<< 1) ||| 1) % 2 = 1 ∧ (((d <<< 1) ||| 1) >>> 1) % 2 ^ 7 = d := by
  decide

/-! ### Command frame -/

/-- C1: with `start_bit = 0`, `transmission_bit = 1`, `stop_bit = 1`, every command
index `i < 64` and CRC `c < 128`, the first frame byte is `0x40 | i`, the last frame
byte is `(c << 1) | 1`, and the command part of the struct (1 header byte, 4 argument
bytes, 1 trailer byte) is exactly `SDSPI_CMD_SIZE = 6` bytes. -/
theorem hw_cmd_frame_layout (cmd : sdspi_hw_cmd_t)
    (hstart : cmd.start_bit = 0) (htrans : cmd.transmission_bit = 1)
    (hstop : cmd.stop_bit = 1) (hi : cmd.cmd_index < 64) (hc : cmd.crc7 < 128) :
    (hw_cmd_frame cmd).head? = some (0x40 ||| cmd.cmd_index) ∧
    (hw_cmd_frame cmd).getLast? = some ((cmd.crc7 <<< 1) ||| 1) ∧
    (hw_cmd_frame cmd).length = SDSPI_CMD_SIZE ∧ SDSPI_CMD_SIZE = 6 ∧
    (hw_cmd_frame cmd).length = 1 + (hw_cmd_argument_bytes cmd).length + 1 ∧
    (hw_cmd_argument_bytes cmd).length = 4 := by
  refine ⟨?_, ?_, rfl, rfl, rfl, rfl⟩
  · simp only [hw_cmd_frame, hw_cmd_header_byte, List.head?_cons, hstart, htrans]
    rw [header_byte_fixed_bits _ hi]
  · simp only [hw_cmd_frame, hw_cmd_argument_bytes, hw_cmd_trailer_byte, hstop]
    simp only [List.cons_append, List.nil_append, List.getLast?_cons_cons,
      List.getLast?_singleton]
    rw [trailer_byte_fixed_bits, Nat.mod_eq_of_lt (show cmd.crc7 < 2 ^ 7 by simpa using hc)]

/-- C1 witness: CMD53 (`SD_IO_RW_EXTENDED`) with CRC 0x2a has first byte 0x75 and last
byte 0x55. -/
theorem hw_cmd_frame_layout_witness :
    hw_cmd_frame { cmd_index := 53, transmission_bit := 1, start_bit := 0,
                   arguments := [0x12, 0x34, 0x56, 0x78], stop_bit := 1, crc7 := 0x2a,
                   ncr := 0xff, r1 := 0xff, response := [] }
      = [0x75, 0x12, 0x34, 0x56, 0x78, 0x55] ∧
    (hw_cmd_frame { cmd_index := 53, transmission_bit := 1, start_bit := 0,
                    arguments := [0x12, 0x34, 0x56, 0x78], stop_bit := 1, crc7 := 0x2a,
                    ncr := 0xff, r1 := 0xff, response := [] }).head? = some (0x40 ||| 53) :=
  ⟨by decide,
   (hw_cmd_frame_layout
      { cmd_index := 53, transmission_bit := 1, start_bit := 0,
        arguments := [0x12, 0x34, 0x56, 0x78], stop_bit := 1, crc7 := 0x2a,
        ncr := 0xff, r1 := 0xff, response := [] }
      rfl rfl rfl (by decide) (by decide)).1⟩

/-- C2: for every 6-bit command index and every 32-bit argument, `encode` succeeds with
a 6-byte frame, and re-parsing that frame recovers the same index and the same argument
(and the CRC field is the 7-bit CRC of the 5 preceding bytes). -/
theorem encode_parse_roundtrip (crc7 : List Nat → Nat) (i arg : Nat)
    (hi : i < 64) (harg : arg < 2 ^ 32) :
    ∃ frame p, encode crc7 i arg = .ok frame ∧ frame.length = SDSPI_CMD_SIZE ∧
      parse_frame frame = some p ∧ p.command_index = i ∧ p.argument = arg ∧
      p.crc7 = crc7 (frame.take 5) % 2 ^ 7 := by
  have hi6 : i < 2 ^ 6 := by simpa using hi
  have hh := header_byte_fields i hi
  have hcl : crc7 [0x40 ||| i, (arg >>> 24) % 2 ^ 8, (arg >>> 16) % 2 ^ 8,
      (arg >>> 8) % 2 ^ 8, arg % 2 ^ 8] % 2 ^ 7 < 128 := Nat.mod_lt _ (by norm_num)
  have ht := trailer_byte_fields _ hcl
  have hframe : encode crc7 i arg = .ok
      [0x40 ||| i, (arg >>> 24) % 2 ^ 8, (arg >>> 16) % 2 ^ 8, (arg >>> 8) % 2 ^ 8,
       arg % 2 ^ 8,
       ((crc7 [0x40 ||| i, (arg >>> 24) % 2 ^ 8, (arg >>> 16) % 2 ^ 8,
          (arg >>> 8) % 2 ^ 8, arg % 2 ^ 8] % 2 ^ 7) <<< 1) ||| 1] := by
    simp only [encode, if_pos hi6, hw_cmd_frame, hw_cmd_header_byte, hw_cmd_argument_bytes,
      hw_cmd_trailer_byte, argument_bytes_be, List.getD_cons_zero, List.getD_cons_succ,
      Nat.mod_mod, List.cons_append, List.nil_append, List.take_succ_cons, List.take_zero]
    rw [header_byte_fixed_bits i hi, trailer_byte_fixed_bits]
  refine ⟨_,
    { command_index := (0x40 ||| i) &&& 0x3f,
      argument := (((arg >>> 24) % 2 ^ 8) <<< 24) ||| (((arg >>> 16) % 2 ^ 8) <<< 16) |||
        (((arg >>> 8) % 2 ^ 8) <<< 8) ||| (arg % 2 ^ 8),
      crc7 := ((((crc7 [0x40 ||| i, (arg >>> 24) % 2 ^ 8, (arg >>> 16) % 2 ^ 8,
          (arg >>> 8) % 2 ^ 8, arg % 2 ^ 8] % 2 ^ 7) <<< 1) ||| 1) >>> 1) % 2 ^ 7 },
    hframe, rfl, ?_, ?_, ?_, ?_⟩
  · simp only [parse_frame]
    rw [if_pos ⟨hh.1, hh.2.1, ht.1⟩]
  · exact hh.2.2
  · exact be32_reassemble arg harg
  · simp only [List.take_succ_cons, List.take_zero]
    exact ht.2

/-- C2 witness: CMD52 with argument 0x12345678 and a CRC primitive returning 0x2a. -/
theorem encode_parse_roundtrip_witness :
    (52 < 64 ∧ 0x12345678 < 2 ^ 32) ∧
    ∃ frame p, encode (fun _ => 0x2a) 52 0x12345678 = .ok frame ∧
      frame.length = SDSPI_CMD_SIZE ∧
      parse_frame frame = some p ∧ p.command_index = 52 ∧ p.argument = 0x12345678 ∧
      p.crc7 = (fun _ => 0x2a) (frame.take 5) % 2 ^ 7 :=
  ⟨by decide, encode_parse_roundtrip (fun _ => 0x2a) 52 0x12345678 (by decide) (by decide)⟩

/-- C3: encoding a command whose opcode does not fit in 6 bits (`opcode >= 64`) fails
with `InvalidCommand`; no frame is produced, and in particular the result is not the
encoding of `opcode mod 64` (no silent truncation into `cmd_index`). -/
theorem encode_rejects_wide_opcode (crc7 : List Nat → Nat) (cmd : sdspi_command_t)
    (hop : 64 ≤ cmd.opcode) :
    encode_command crc7 cmd = .error SdspiError.InvalidCommand ∧
    (∀ frame, encode_command crc7 cmd ≠ .ok frame) ∧
    encode_command crc7 cmd ≠ encode crc7 (cmd.opcode % 64) cmd.arg := by
  have hno : ¬ cmd.opcode < 2 ^ 6 := by
    have : (2 : Nat) ^ 6 = 64 := by norm_num
    omega
  have herr : encode_command crc7 cmd = .error SdspiError.InvalidCommand := by
    simp only [encode_command, encode, if_neg hno]
  refine ⟨herr, ?_, ?_⟩
  · intro frame hf
    rw [herr] at hf
    cases hf
  · have hlt : cmd.opcode % 64 < 2 ^ 6 := Nat.mod_lt _ (by norm_num)
    rw [herr]
    simp only [encode, if_pos hlt]
    intro hf
    cases hf

/-- C3 witness: opcode 64 + 53 is rejected rather than sent as CMD53. -/
theorem encode_rejects_wide_opcode_witness :
    64 ≤ (117 : Nat) ∧
    encode_command (fun _ => 0)
      { opcode := 117, arg := 0, response := [], data := [], datalen := 0, blklen := 0,
        flags := 0, error := 0, timeout_ms := 0 } = .error SdspiError.InvalidCommand :=
  ⟨by decide,
   (encode_rejects_wide_opcode (fun _ => 0)
      { opcode := 117, arg := 0, response := [], data := [], datalen := 0, blklen := 0,
        flags := 0, error := 0, timeout_ms := 0 } (by decide)).1⟩

/-! ### R1 status byte -/

/-- Every status byte is the union of the flags set in it. -/
theorem flags_union_r1_flags_set : ∀ b < 256, flags_union (r1_flags_set b) = b := by
  set_option maxRecDepth 100000 in decide

/-- Every selection of header flags is read back unchanged from its union. -/
theorem r1_flags_set_flags_union :
    ∀ s ∈ r1_flags.sublists, r1_flags_set (flags_union s) = s ∧ flags_union s < 256 := by
  set_option maxRecDepth 100000 in decide

/-- C5: the eight R1 flags are, in declaration order, bits 0 to 7 of the status byte:
pairwise disjoint with union 0xFF; every status byte `b` in 0..255 is the bitwise OR of
exactly the flags `f` with `b & f != 0`, so the byte and the flag set determine each
other. -/
theorem r1_status_flags (b : Nat) (hb : b < 256) :
    r1_flags = (List.range 8).map (fun k => 2 ^ k) ∧
    r1_flags.Pairwise (fun f g => f &&& g = 0) ∧
    flags_union r1_flags = 0xFF ∧
    flags_union (r1_flags_set b) = b ∧
    (∀ f, f ∈ r1_flags_set b ↔ f ∈ r1_flags ∧ b &&& f ≠ 0) ∧
    (∀ b2, b2 < 256 → r1_flags_set b2 = r1_flags_set b → b2 = b) ∧
    (∀ s, s.Sublist r1_flags → r1_flags_set (flags_union s) = s ∧ flags_union s < 256) := by
  refine ⟨by decide, by decide, by decide, flags_union_r1_flags_set b hb, ?_, ?_, ?_⟩
  · intro f
    simp [r1_flags_set, List.mem_filter]
  · intro b2 hb2 heq
    rw [← flags_union_r1_flags_set b2 hb2, heq, flags_union_r1_flags_set b hb]
  · intro s hs
    exact r1_flags_set_flags_union s (List.mem_sublists.mpr hs)

/-- C5 witness: status byte 0x05 is exactly idle state and illegal command. -/
theorem r1_status_flags_witness :
    (0x05 : Nat) < 256 ∧
    r1_flags_set 0x05 = [SD_SPI_R1_IDLE_STATE, SD_SPI_R1_ILLEGAL_CMD] ∧
    flags_union (r1_flags_set 0x05) = 0x05 :=
  ⟨by decide, by decide, (r1_status_flags 0x05 (by decide)).2.2.2.1⟩

/-- C4: the response payload sizes implied by the transaction-size constants: R1, R4
and R5 sizes minus the 6-byte command and the minimum 1-byte Ncr delay are 1, 5 and 2
bytes, and the no-response size minus the 6-byte command is 0 bytes. -/
theorem response_payload_sizes :
    SDSPI_CMD_R1_SIZE = SDSPI_CMD_SIZE + SDSPI_NCR_MIN_SIZE + 1 ∧
    SDSPI_CMD_R4_SIZE = SDSPI_CMD_SIZE + SDSPI_NCR_MIN_SIZE + 5 ∧
    SDSPI_CMD_R5_SIZE = SDSPI_CMD_SIZE + SDSPI_NCR_MIN_SIZE + 2 ∧
    SDSPI_CMD_NORESP_SIZE = SDSPI_CMD_SIZE + 0 ∧
    SDSPI_CMD_R1_SIZE - SDSPI_CMD_SIZE - SDSPI_NCR_MIN_SIZE = 1 ∧
    SDSPI_CMD_R4_SIZE - SDSPI_CMD_SIZE - SDSPI_NCR_MIN_SIZE = 5 ∧
    SDSPI_CMD_R5_SIZE - SDSPI_CMD_SIZE - SDSPI_NCR_MIN_SIZE = 2 ∧
    SDSPI_CMD_NORESP_SIZE - SDSPI_CMD_SIZE = 0 ∧
    SDSPI_CMD_SIZE = 6 ∧ SDSPI_NCR_MIN_SIZE = 1 := by
  decide

/-- C6: the wire constants of the header: idle fill 0xFF, maximum response delay 8
(both names), start token 0xFE, multi-block-write start token 0xFC, multi-block stop
token 0xFD, maximum block length 512; idle fill and the three tokens are pairwise
distinct. -/
theorem wire_constants :
    SDSPI_MOSI_IDLE_VAL = 0xFF ∧
    SDSPI_RESPONSE_MAX_DELAY = 8 ∧ SDSPI_NCR_MAX_SIZE = 8 ∧
    SDSPI_RESPONSE_MAX_DELAY = SDSPI_NCR_MAX_SIZE ∧
    TOKEN_BLOCK_START = 0xFE ∧
    TOKEN_BLOCK_START_WRITE_MULTI = 0xFC ∧
    TOKEN_BLOCK_STOP_WRITE_MULTI = 0xFD ∧
    SDSPI_MAX_DATA_LEN = 512 ∧
    [SDSPI_MOSI_IDLE_VAL, TOKEN_BLOCK_START, TOKEN_BLOCK_START_WRITE_MULTI,
      TOKEN_BLOCK_STOP_WRITE_MULTI].Pairwise (fun a b => a ≠ b) := by
  decide

/-! ### Flow-control tracker -/

/-- The cost in buffers covers the data: `n <= buffers_used b n * b`. -/
theorem buffers_used_covers (b n : Nat) (hb : 0 < b) : n ≤ buffers_used b n * b := by
  unfold buffers_used
  have hdm := Nat.div_add_mod n b
  have hlt := Nat.mod_lt n hb
  have hcomm : b * (n / b) = n / b * b := Nat.mul_comm _ _
  split
  · rename_i h0
    rw [Nat.add_zero]
    omega
  · rw [Nat.add_mul, Nat.one_mul]
    omega

/-- No smaller number of buffers covers the data. -/
theorem buffers_used_least (b n j : Nat) (hj : n ≤ j * b) : buffers_used b n ≤ j := by
  unfold buffers_used
  rcases Nat.eq_zero_or_pos b with hb | hb
  · subst hb
    have hn : n = 0 := by simpa using hj
    subst hn
    simp
  · have hdm := Nat.div_add_mod n b
    have hq : n / b ≤ j := by
      rw [Nat.mul_comm] at hj
      exact Nat.div_le_of_le_mul hj
    split
    · omega
    · rename_i hne
      by_contra hcon
      have hje : j = n / b := by omega
      rw [hje, Nat.mul_comm] at hj
      omega

/-- The cost in buffers is the usual rounded-up quotient `(n + b - 1) / b`. -/
theorem buffers_used_eq_ceil (b n : Nat) (hb : 0 < b) :
    buffers_used b n = (n + b - 1) / b := by
  have hcov := buffers_used_covers b n hb
  symm
  apply Nat.div_eq_of_lt_le
  · by_contra hcon
    have hlt : n + b - 1 < buffers_used b n * b := Nat.lt_of_not_le hcon
    have hpos : 0 < buffers_used b n := by
      rcases Nat.eq_zero_or_pos (buffers_used b n) with h0 | h0
      · rw [h0] at hlt
        simp at hlt
      · exact h0
    have hle := buffers_used_least b n (buffers_used b n - 1) (by
      have hsplit : buffers_used b n * b = (buffers_used b n - 1) * b + b := by
        conv_lhs => rw [show buffers_used b n = (buffers_used b n - 1) + 1 by omega]
        rw [Nat.add_mul, Nat.one_mul]
      omega)
    omega
  · rw [Nat.succ_mul]
    omega

/-- C7: for `buffer_size` b > 0 and data length n, a successful send advances
`tx_sent_buffers` by n divided by b rounded up, that is by the least k with
`k * b >= n`; in particular 10 bytes with 8-byte buffers cost 2 buffers. -/
theorem commit_send_cost (ctx : spi_context_t) (n : Nat) (hb : 0 < ctx.buffer_size) :
    (commit_send ctx n).tx_sent_buffers =
      ctx.tx_sent_buffers + buffers_used ctx.buffer_size n ∧
    n ≤ buffers_used ctx.buffer_size n * ctx.buffer_size ∧
    (∀ j, n ≤ j * ctx.buffer_size → buffers_used ctx.buffer_size n ≤ j) ∧
    buffers_used ctx.buffer_size n = (n + ctx.buffer_size - 1) / ctx.buffer_size ∧
    (commit_send ctx n).rx_got_bytes = ctx.rx_got_bytes ∧
    buffers_used 8 10 = 2 :=
  ⟨rfl, buffers_used_covers _ n hb, fun j hj => buffers_used_least _ n j hj,
   buffers_used_eq_ceil _ n hb, rfl, by decide⟩

/-- C7 witness: 10 bytes with 8-byte buffers advance `tx_sent_buffers` from 5 to 7. -/
theorem commit_send_cost_witness :
    (0 < (8 : Nat)) ∧
    (commit_send { buffer_size := 8, block_size := 512, tx_sent_buffers := 5,
                   rx_got_bytes := 0 } 10).tx_sent_buffers = 5 + 2 :=
  ⟨by decide,
   (commit_send_cost { buffer_size := 8, block_size := 512, tx_sent_buffers := 5,
                       rx_got_bytes := 0 } 10 (by decide)).1⟩

/-- A run of commits leaves `buffer_size` and `block_size` alone and adds the committed
amounts to the two counters. -/
theorem run_commits_totals (cs : List Commit) : ∀ ctx : spi_context_t,
    (run_commits ctx cs).buffer_size = ctx.buffer_size ∧
    (run_commits ctx cs).block_size = ctx.block_size ∧
    (run_commits ctx cs).tx_sent_buffers =
      ctx.tx_sent_buffers + (cs.map (sent_amount ctx.buffer_size)).sum ∧
    (run_commits ctx cs).rx_got_bytes = ctx.rx_got_bytes + (cs.map received_amount).sum := by
  induction cs with
  | nil => intro ctx; simp [run_commits]
  | cons c cs ih =>
    intro ctx
    have h := ih (apply_commit ctx c)
    have hrun : run_commits ctx (c :: cs) = run_commits (apply_commit ctx c) cs := rfl
    rw [hrun]
    cases c with
    | send n =>
      simp only [apply_commit, commit_send] at h
      simp only [apply_commit, commit_send, List.map_cons, List.sum_cons, sent_amount,
        received_amount]
      refine ⟨h.1, h.2.1, ?_, ?_⟩
      · rw [h.2.2.1]; omega
      · rw [h.2.2.2]; omega
    | receive n =>
      simp only [apply_commit, commit_receive] at h
      simp only [apply_commit, commit_receive, List.map_cons, List.sum_cons, sent_amount,
        received_amount]
      refine ⟨h.1, h.2.1, ?_, ?_⟩
      · rw [h.2.2.1]; omega
      · rw [h.2.2.2]; omega

/-- C8: starting from the reset context (both counters 0), after any sequence of
successful send and receive commits each counter equals the sum of the amounts
committed in its direction, neither counter ever decreases along the sequence, and
`buffer_size` and `block_size` are unchanged. -/
theorem flow_control_monotone (ctx : spi_context_t) (cs : List Commit) :
    (reset ctx).tx_sent_buffers = 0 ∧ (reset ctx).rx_got_bytes = 0 ∧
    (run_commits (reset ctx) cs).tx_sent_buffers =
      (cs.map (sent_amount ctx.buffer_size)).sum ∧
    (run_commits (reset ctx) cs).rx_got_bytes = (cs.map received_amount).sum ∧
    (run_commits (reset ctx) cs).buffer_size = ctx.buffer_size ∧
    (run_commits (reset ctx) cs).block_size = ctx.block_size ∧
    (∀ c, (run_commits (reset ctx) cs).tx_sent_buffers ≤
            (apply_commit (run_commits (reset ctx) cs) c).tx_sent_buffers ∧
          (run_commits (reset ctx) cs).rx_got_bytes ≤
            (apply_commit (run_commits (reset ctx) cs) c).rx_got_bytes) ∧
    (∀ more, (run_commits (reset ctx) cs).tx_sent_buffers ≤
               (run_commits (reset ctx) (cs ++ more)).tx_sent_buffers ∧
             (run_commits (reset ctx) cs).rx_got_bytes ≤
               (run_commits (reset ctx) (cs ++ more)).rx_got_bytes) := by
  have h := run_commits_totals cs (reset ctx)
  have hbs : (reset ctx).buffer_size = ctx.buffer_size := rfl
  have hbl : (reset ctx).block_size = ctx.block_size := rfl
  have htx : (reset ctx).tx_sent_buffers = 0 := rfl
  have hrx : (reset ctx).rx_got_bytes = 0 := rfl
  refine ⟨rfl, rfl, ?_, ?_, ?_, ?_, ?_, ?_⟩
  · rw [h.2.2.1, htx, hbs, Nat.zero_add]
  · rw [h.2.2.2, hrx, Nat.zero_add]
  · rw [h.1, hbs]
  · rw [h.2.1, hbl]
  · intro c
    cases c with
    | send n => exact ⟨Nat.le_add_right _ _, Nat.le_refl _⟩
    | receive n => exact ⟨Nat.le_refl _, Nat.le_add_right _ _⟩
  · intro more
    have happ : run_commits (reset ctx) (cs ++ more) =
        run_commits (run_commits (reset ctx) cs) more := by
      simp [run_commits, List.foldl_append]
    have h2 := run_commits_totals more (run_commits (reset ctx) cs)
    rw [happ, h2.2.2.1, h2.2.2.2]
    exact ⟨Nat.le_add_right _ _, Nat.le_add_right _ _⟩

/-! ### CMD53 argument word -/

/-- The flag bits and the function number occupy bits 26..31 of the word. -/
theorem cmd53_high_bits : ∀ (w b i : Bool), ∀ f < 8,
    (if w then SD_ARG_CMD53_WRITE else SD_ARG_CMD53_READ) |||
        (if b then SD_ARG_CMD53_BLOCK_MODE else 0) |||
        (if i then SD_ARG_CMD53_INCREMENT else 0) ||| (f <<< SD_ARG_CMD53_FUNC_SHIFT) =
      (w.toNat * 32 + f * 4 + b.toNat * 2 + i.toNat) <<< 26 := by
  decide

/-- The CMD53 argument word as a sum of its fields, each at its own position. -/
theorem sd_arg_cmd53_eq_sum (write block_mode increment : Bool) (func reg len : Nat)
    (hf : func ≤ SD_ARG_CMD53_FUNC_MASK) (hr : reg ≤ SD_ARG_CMD53_REG_MASK)
    (hl : len ≤ SD_ARG_CMD53_LENGTH_MASK) :
    (if write then SD_ARG_CMD53_WRITE else SD_ARG_CMD53_READ) |||
        (if block_mode then SD_ARG_CMD53_BLOCK_MODE else 0) |||
        (if increment then SD_ARG_CMD53_INCREMENT else 0) |||
        (func <<< SD_ARG_CMD53_FUNC_SHIFT) ||| (reg <<< SD_ARG_CMD53_REG_SHIFT) |||
        (len <<< SD_ARG_CMD53_LENGTH_SHIFT) =
      (write.toNat * 32 + func * 4 + block_mode.toNat * 2 + increment.toNat) * 2 ^ 26 +
        (reg * 2 ^ 9 + len) := by
  have hf8 : func < 8 := by
    have : SD_ARG_CMD53_FUNC_MASK = 7 := rfl
    omega
  have hr17 : reg < 2 ^ 17 := by
    have : SD_ARG_CMD53_REG_MASK = 2 ^ 17 - 1 := by decide
    omega
  have hl9 : len < 2 ^ 9 := by
    have : SD_ARG_CMD53_LENGTH_MASK = 2 ^ 9 - 1 := by decide
    omega
  rw [cmd53_high_bits write block_mode increment func hf8]
  have hs9 : SD_ARG_CMD53_REG_SHIFT = 9 := rfl
  have hs0 : SD_ARG_CMD53_LENGTH_SHIFT = 0 := rfl
  rw [hs9, hs0, Nat.shiftLeft_zero, Nat.or_assoc, shl_or_eq_add reg len 9 hl9]
  rw [shl_or_eq_add _ _ 26 (by omega)]

/-- C9: the CMD53 argument fields do not overlap: for func, reg and len within their
masks and any choice of the WRITE (bit 31), BLOCK_MODE (bit 27) and INCREMENT (bit 26)
flags, the word `flags | (func << 28) | (reg << 9) | (len << 0)` is below 2^32, shifting
right by each field shift and masking with its mask recovers func, reg and len exactly,
and each flag bit is set in the word iff it was chosen. -/
theorem cmd53_fields_disjoint (write block_mode increment : Bool) (func reg len w : Nat)
    (hf : func ≤ SD_ARG_CMD53_FUNC_MASK) (hr : reg ≤ SD_ARG_CMD53_REG_MASK)
    (hl : len ≤ SD_ARG_CMD53_LENGTH_MASK)
    (hw : w = (if write then SD_ARG_CMD53_WRITE else SD_ARG_CMD53_READ) |||
        (if block_mode then SD_ARG_CMD53_BLOCK_MODE else 0) |||
        (if increment then SD_ARG_CMD53_INCREMENT else 0) |||
        (func <<< SD_ARG_CMD53_FUNC_SHIFT) ||| (reg <<< SD_ARG_CMD53_REG_SHIFT) |||
        (len <<< SD_ARG_CMD53_LENGTH_SHIFT)) :
    w < 2 ^ 32 ∧
    (w >>> SD_ARG_CMD53_FUNC_SHIFT) &&& SD_ARG_CMD53_FUNC_MASK = func ∧
    (w >>> SD_ARG_CMD53_REG_SHIFT) &&& SD_ARG_CMD53_REG_MASK = reg ∧
    (w >>> SD_ARG_CMD53_LENGTH_SHIFT) &&& SD_ARG_CMD53_LENGTH_MASK = len ∧
    (w &&& SD_ARG_CMD53_WRITE ≠ 0 ↔ write = true) ∧
    (w &&& SD_ARG_CMD53_BLOCK_MODE ≠ 0 ↔ block_mode = true) ∧
    (w &&& SD_ARG_CMD53_INCREMENT ≠ 0 ↔ increment = true) := by
  have hsum := sd_arg_cmd53_eq_sum write block_mode increment func reg len hf hr hl
  rw [← hw] at hsum
  have hf8 : func < 8 := by
    have : SD_ARG_CMD53_FUNC_MASK = 7 := rfl
    omega
  have hr17 : reg < 2 ^ 17 := by
    have : SD_ARG_CMD53_REG_MASK = 2 ^ 17 - 1 := by decide
    omega
  have hl9 : len < 2 ^ 9 := by
    have : SD_ARG_CMD53_LENGTH_MASK = 2 ^ 9 - 1 := by decide
    omega
  have hmf : SD_ARG_CMD53_FUNC_MASK = 2 ^ 3 - 1 := by decide
  have hmr : SD_ARG_CMD53_REG_MASK = 2 ^ 17 - 1 := by decide
  have hml : SD_ARG_CMD53_LENGTH_MASK = 2 ^ 9 - 1 := by decide
  have hwr : SD_ARG_CMD53_WRITE = 2 ^ 31 := by decide
  have hbm : SD_ARG_CMD53_BLOCK_MODE = 2 ^ 27 := by decide
  have hin : SD_ARG_CMD53_INCREMENT = 2 ^ 26 := by decide
  have hsf : SD_ARG_CMD53_FUNC_SHIFT = 28 := rfl
  have hsr : SD_ARG_CMD53_REG_SHIFT = 9 := rfl
  have hsl : SD_ARG_CMD53_LENGTH_SHIFT = 0 := rfl
  clear hw
  rw [hmf, hmr, hml, hwr, hbm, hin, hsf, hsr, hsl]
  simp only [Nat.and_pow_two_sub_one_eq_mod, Nat.shiftRight_eq_div_pow,
    and_two_pow_ne_zero_iff]
  rw [hsum]
  cases write <;> cases block_mode <;> cases increment <;>
    simp only [Bool.toNat_true, Bool.toNat_false] <;>
    refine ⟨by omega, by omega, by omega, by omega, ?_, ?_, ?_⟩ <;>
    simp <;> omega

/-- C9 witness: a block-mode incrementing write to function 1 at register
`ESP_SLAVE_CMD53_END_ADDR` with length 0x1ff is the word `0x9ff001ff`, from which the
function number reads back as 1. -/
theorem cmd53_fields_disjoint_witness :
    ((1 : Nat) ≤ SD_ARG_CMD53_FUNC_MASK ∧ ESP_SLAVE_CMD53_END_ADDR ≤ SD_ARG_CMD53_REG_MASK ∧
      (0x1ff : Nat) ≤ SD_ARG_CMD53_LENGTH_MASK) ∧
    (0x9ff001ff = SD_ARG_CMD53_WRITE ||| SD_ARG_CMD53_BLOCK_MODE ||| SD_ARG_CMD53_INCREMENT |||
        (1 <<< SD_ARG_CMD53_FUNC_SHIFT) ||| (ESP_SLAVE_CMD53_END_ADDR <<< SD_ARG_CMD53_REG_SHIFT) |||
        (0x1ff <<< SD_ARG_CMD53_LENGTH_SHIFT)) ∧
    (0x9ff001ff >>> SD_ARG_CMD53_FUNC_SHIFT) &&& SD_ARG_CMD53_FUNC_MASK = 1 :=
  ⟨by decide, by decide,
   (cmd53_fields_disjoint true true true 1 ESP_SLAVE_CMD53_END_ADDR 0x1ff 0x9ff001ff
      (by decide) (by decide) (by decide) (by decide)).2.1⟩

/-- C10: the CMD53 length field cannot hold the maximum block length literally: every
n with 1 <= n <= 511 is kept by `SD_ARG_CMD53_LENGTH_MASK`, `SDSPI_MAX_DATA_LEN` (512)
is masked to 0, masking is injective on the lengths 1..512, and 512 is the only one of
them encoded as 0. -/
theorem cmd53_length_mask_range (n m : Nat) (hn1 : 1 ≤ n) (hn : n ≤ SDSPI_MAX_DATA_LEN)
    (hm1 : 1 ≤ m) (hm : m ≤ SDSPI_MAX_DATA_LEN) :
    (n ≤ 511 → n &&& SD_ARG_CMD53_LENGTH_MASK = n) ∧
    SDSPI_MAX_DATA_LEN = 512 ∧
    SDSPI_MAX_DATA_LEN &&& SD_ARG_CMD53_LENGTH_MASK = 0 ∧
    (n &&& SD_ARG_CMD53_LENGTH_MASK = m &&& SD_ARG_CMD53_LENGTH_MASK → n = m) ∧
    (n &&& SD_ARG_CMD53_LENGTH_MASK = 0 ↔ n = SDSPI_MAX_DATA_LEN) := by
  have hml : SD_ARG_CMD53_LENGTH_MASK = 2 ^ 9 - 1 := by decide
  have hmax : SDSPI_MAX_DATA_LEN = 512 := rfl
  have hn2 : n ≤ 512 := hn
  have hm2 : m ≤ 512 := hm
  rw [hml, hmax]
  simp only [Nat.and_pow_two_sub_one_eq_mod]
  refine ⟨?_, trivial, by decide, ?_, ?_⟩
  · intro h; omega
  · intro h; omega
  · constructor <;> intro h <;> omega

/-- C10 witness: length 511 is kept by the mask (and is told apart from 512). -/
theorem cmd53_length_mask_range_witness :
    ((1 : Nat) ≤ 511 ∧ (511 : Nat) ≤ SDSPI_MAX_DATA_LEN ∧ (1 : Nat) ≤ 512 ∧
      (512 : Nat) ≤ SDSPI_MAX_DATA_LEN) ∧
    (511 &&& SD_ARG_CMD53_LENGTH_MASK = 511) ∧
    (512 &&& SD_ARG_CMD53_LENGTH_MASK = 0) :=
  ⟨by decide,
   (cmd53_length_mask_range 511 512 (by decide) (by decide) (by decide) (by decide)).1
     (by decide),
   by decide⟩

end Sdspi
